import Mathlib

/-!
Verification development for the perls2 end-effector posture controller
(`perls2/controllers/ee_posture.py`).

The controller file is embedded shallowly over `ℚ`:

* vectors are functions `Fin n → ℚ`, matrices are Mathlib matrices over `ℚ`;
* the operational-space math kernel (`opspace_matrices`, `nullspace_torques`,
  `orientation_error`) lives in `perls2/controllers/utils/control_utils.py`,
  which is not part of the sources of this development; those functions are
  modelled from the specification, as documented on each definition;
* the base impedance controller (`ee_imp.py`) is likewise absent; the
  controller state it owns (goal pose, orientation reference, interpolation
  flag, gains) is modelled from the specification, with `Option` playing the
  role of the `None` sentinel for a goal that was never set;
* Python exceptions escaping `run_controller` are modelled by returning an
  `Except` result paired with the controller state as it stands when the
  exception propagates (object mutations performed before the raise persist).
-/

/-- Joint-space / task-space vectors as functions out of `Fin n`. -/
abbrev Vec (n : ℕ) : Type := Fin n → ℚ

/-- Matrices over the rationals. -/
abbrev Mat (m n : ℕ) : Type := Matrix (Fin m) (Fin n) ℚ

/-- Executable matrix inverse over `ℚ`, via the adjugate.  Agrees with
Mathlib's `Matrix.inv` (see `myInv_eq`), and sends singular matrices to a
degenerate (zero-determinant-scaled) matrix rather than failing, mirroring
the graceful-degradation requirement on the math kernel. -/
def myInv {k : ℕ} (A : Mat k k) : Mat k k := (A.det)⁻¹ • A.adjugate

theorem myInv_eq {k : ℕ} (A : Mat k k) : myInv A = A⁻¹ := by
  rw [Matrix.inv_def, Ring.inverse_eq_inv']
  rfl

theorem myInv_one {k : ℕ} : myInv (1 : Mat k k) = 1 := by
  rw [myInv_eq]
  exact Matrix.inv_eq_right_inv (one_mul 1)

/-- Cross product of 3-vectors. -/
def cross3 (a b : Vec 3) : Vec 3 :=
  ![a 1 * b 2 - a 2 * b 1, a 2 * b 0 - a 0 * b 2, a 0 * b 1 - a 1 * b 0]

/-- Column `j` of a 3×3 matrix. -/
def col3 (R : Mat 3 3) (j : Fin 3) : Vec 3 := fun i => R i j

/-- Modelled from the spec: `orientation_error` of the math kernel
(`control_utils.py`, not under the sources).  The geometric orientation
error between two rotation matrices as a minimal 3-parameter vector,
realised by the standard column-cross-product form
`½ Σⱼ current_colⱼ × desired_colⱼ`; it returns the zero vector for
identical orientations and is antisymmetric under argument swap, as the
spec requires. -/
def orientation_error (desired current : Mat 3 3) : Vec 3 :=
  (1 / 2 : ℚ) •
    (cross3 (col3 current 0) (col3 desired 0) +
     cross3 (col3 current 1) (col3 desired 1) +
     cross3 (col3 current 2) (col3 desired 2))

theorem cross3_self (a : Vec 3) : cross3 a a = 0 := by
  funext i
  fin_cases i <;> simp [cross3] <;> ring

theorem orientation_error_self (R : Mat 3 3) : orientation_error R R = 0 := by
  unfold orientation_error
  rw [cross3_self, cross3_self, cross3_self]
  simp

/-- Modelled from the spec: operational-space inertia
`Λ = (J · M⁻¹ · Jᵗ)⁻¹` for one Jacobian (`control_utils.py`, not under the
sources). -/
def lambda_of {k : ℕ} (mass_matrix : Mat 7 7) (J : Mat k 7) : Mat k k :=
  myInv (J * myInv mass_matrix * J.transpose)

/-- Modelled from the spec: `opspace_matrices` of the math kernel
(`control_utils.py`, not under the sources).  Returns the three
operational-space inertias and the null-space projector
`N = I − Jᵗ · Λ_full · J · M⁻¹`, exactly as the spec writes it. -/
def opspace_matrices (mass_matrix : Mat 7 7) (J_full : Mat 6 7)
    (J_pos J_ori : Mat 3 7) : Mat 6 6 × Mat 3 3 × Mat 3 3 × Mat 7 7 :=
  (lambda_of mass_matrix J_full,
   lambda_of mass_matrix J_pos,
   lambda_of mass_matrix J_ori,
   1 - J_full.transpose * lambda_of mass_matrix J_full * J_full * myInv mass_matrix)

/-- Modelled from the spec: the critically damped derivative gain derived
from the proportional posture gain, `kv = 2·√kp`, with the exact rational
square root standing in for the numerical one (the claims below only
depend on its value at `0`). -/
def joint_kv_of (joint_kp : ℚ) : ℚ := 2 * Rat.sqrt joint_kp

/-- Modelled from the spec: `nullspace_torques` of the math kernel
(`control_utils.py`, not under the sources).  A joint-space PD law driving
`joint_pos` toward `initial_joint`, pre-multiplied by the mass matrix and
projected through the transpose of the null-space projector. -/
def nullspace_torques (mass_matrix nullspace_matrix : Mat 7 7)
    (initial_joint joint_pos joint_vel : Vec 7) (joint_kp : ℚ) : Vec 7 :=
  nullspace_matrix.transpose.mulVec
    (mass_matrix.mulVec
      (fun i => joint_kp * (initial_joint i - joint_pos i) -
                joint_kv_of joint_kp * joint_vel i))

/-- Errors with which a controller cycle can abort. -/
inductive CtrlError : Type where
  | unsetGoal : CtrlError
  | shapeMismatch : CtrlError
  | absentReading : CtrlError
deriving DecidableEq

/-- Modelled from the spec: the posture target reaches `nullspace_torques`
as a raw list (`np.array(posture)`), and a target whose shape does not
match the joint count is rejected as a contract violation rather than
silently truncated. -/
def nullspace_torques_chk (mass_matrix nullspace_matrix : Mat 7 7)
    (initial_joint : List ℚ) (joint_pos joint_vel : Vec 7) (joint_kp : ℚ) :
    Except CtrlError (Vec 7) :=
  if h : initial_joint.length = 7 then
    .ok (nullspace_torques mass_matrix nullspace_matrix
          (fun i => initial_joint.get (Fin.cast h.symm i)) joint_pos joint_vel joint_kp)
  else
    .error .shapeMismatch

/-- The robot model (kinematic/dynamic state provider) as read during one
cycle, from `robot_model/model.py` accessors used by `ee_posture.py`. -/
structure Model : Type where
  mass_matrix : Mat 7 7
  J_full : Mat 6 7
  J_pos : Mat 3 7
  J_ori : Mat 3 7
  joint_pos : Vec 7
  joint_vel : Vec 7
  ee_pos : Vec 3
  ee_ori_mat : Mat 3 3
  ee_pos_vel : Vec 3
  ee_ori_vel : Vec 3
  torque_compensation : Vec 7

/-- A trajectory interpolator: its declared order and its
`get_interpolated_goal` output, read as a flat array (entries beyond the
returned length are irrelevant junk). -/
structure Interp : Type where
  order : ℕ
  get : Vec 3 → ℕ → ℚ

/-- Three consecutive entries of a flat array, as the slices
`r[0:3]`, `r[3:6]`, `r[6:]` taken by `run_controller`. -/
def slice3 (g : ℕ → ℚ) (off : ℕ) : Vec 3 := fun i => g (off + i.1)

/-- First three entries of a 6-vector of gains (`kp[0:3]`). -/
def lo3 (v : Vec 6) : Vec 3 := fun i => v ⟨i.1, by omega⟩

/-- Last three entries of a 6-vector of gains (`kp[3:6]`). -/
def hi3 (v : Vec 6) : Vec 3 := fun i => v ⟨i.1 + 3, by omega⟩

/-- Value of a length-six-or-more vector literal at index five, complementing
Mathlib's `Matrix.cons_val_four`. -/
theorem cons_val_five {α : Type} {m : ℕ} (x : α)
    (u : Fin (Nat.succ (Nat.succ (Nat.succ (Nat.succ (Nat.succ m))))) → α) :
    Matrix.vecCons x u 5 =
      Matrix.vecHead (Matrix.vecTail (Matrix.vecTail (Matrix.vecTail
        (Matrix.vecTail u)))) :=
  rfl

/-- Concatenation of two 3-vectors into a 6-vector (`np.concatenate`). -/
def vappend (a b : Vec 3) : Vec 6 := ![a 0, a 1, a 2, b 0, b 1, b 2]

/-- The state of an `EEPostureController`.  Configuration fields are from
`ee_posture.py.__init__`; the goal fields are the base-class state, modelled
from the spec with `Option`'s `none` as the never-set sentinel. -/
structure EEPostureController : Type where
  kp : Vec 6
  kv : Vec 6
  uncoupling : Bool
  posture_gain : ℚ
  goal_posture : List ℚ
  goal_pos : Option (Vec 3)
  goal_ori : Option (Mat 3 3)
  ori_ref : Option (Mat 3 3)
  ori_interpolate_started : Bool
  relative_ori : Vec 3
  interpolator_pos : Option Interp
  interpolator_ori : Option Interp
  torques : Vec 7

/-- Lines 95–104 of `ee_posture.py`: resolve the desired position
trajectory.  The result triple is (desired position, desired velocity,
desired acceleration); the position component is `Option`-valued because
`np.array(self.goal_pos)` of the `None` sentinel does not itself raise. -/
def resolve_pos (c : EEPostureController) (m : Model) :
    Option (Vec 3) × Vec 3 × Vec 3 :=
  match c.interpolator_pos with
  | some ip =>
    if ip.order = 4 then
      (some (slice3 (ip.get m.ee_pos) 0),
       slice3 (ip.get m.ee_pos) 3,
       slice3 (ip.get m.ee_pos) 6)
    else
      (some (slice3 (ip.get m.ee_pos) 0), 0, 0)
  | none => (c.goal_pos, 0, 0)

/-- Lines 106–120 of `ee_posture.py`: resolve the orientation error signal.
Returns (orientation error, desired angular velocity, desired angular
acceleration, controller state after the block's mutations).  Reading an
absent orientation reference or goal raises, which is modelled as an
`unsetGoal` error. -/
def resolve_ori (c : EEPostureController) (m : Model) :
    Except CtrlError (Vec 3 × Vec 3 × Vec 3 × EEPostureController) :=
  match c.interpolator_ori with
  | some io =>
    match c.ori_ref with
    | none => .error .unsetGoal
    | some oref =>
      if io.order = 4 then
        .ok (slice3 (io.get (orientation_error m.ee_ori_mat oref)) 0,
             slice3 (io.get (orientation_error m.ee_ori_mat oref)) 3,
             slice3 (io.get (orientation_error m.ee_ori_mat oref)) 6,
             { c with relative_ori := orientation_error m.ee_ori_mat oref,
                      ori_interpolate_started := true })
      else
        .ok (slice3 (io.get (orientation_error m.ee_ori_mat oref)) 0, 0, 0,
             { c with relative_ori := orientation_error m.ee_ori_mat oref })
  | none =>
    match c.goal_ori with
    | none => .error .unsetGoal
    | some go => .ok (orientation_error go m.ee_ori_mat, 0, 0, c)

/-- Lines 122–126 of `ee_posture.py`: the desired task-space force from
position error, velocity error and acceleration feedforward, given the
controller's gain vectors. -/
def desired_force (kp kv : Vec 6) (m : Model)
    (dp dvp dap : Vec 3) : Vec 3 :=
  fun i => (dp i - m.ee_pos i) * lo3 kp i +
           (dvp i - m.ee_pos_vel i) * lo3 kv i + dap i

/-- Lines 128–131 of `ee_posture.py`: the desired task-space torque from
orientation error, angular-velocity error and acceleration feedforward,
given the controller's gain vectors. -/
def desired_torque (kp kv : Vec 6) (m : Model)
    (oe dvo dao : Vec 3) : Vec 3 :=
  fun i => oe i * hi3 kp i + (dvo i - m.ee_ori_vel i) * hi3 kv i + dao i

/-- Lines 137–143 of `ee_posture.py`: the decoupled/coupled task wrench. -/
def task_wrench (uncoupling : Bool) (lf : Mat 6 6) (lp lo : Mat 3 3)
    (F Tq : Vec 3) : Vec 6 :=
  if uncoupling then vappend (lp.mulVec F) (lo.mulVec Tq)
  else lf.mulVec (vappend F Tq)

/-- Line 145 of `ee_posture.py`: map the wrench to joint torques through
the full Jacobian transpose and add the torque compensation, given the
controller's coupling mode. -/
def task_torque (uncoupling : Bool) (m : Model) (F Tq : Vec 3) : Vec 7 :=
  (m.J_full).transpose.mulVec
    (task_wrench uncoupling
      (opspace_matrices m.mass_matrix m.J_full m.J_pos m.J_ori).1
      (opspace_matrices m.mass_matrix m.J_full m.J_pos m.J_ori).2.1
      (opspace_matrices m.mass_matrix m.J_full m.J_pos m.J_ori).2.2.1 F Tq) +
  m.torque_compensation

/-- Lines 88–155 of `ee_posture.py`: one cycle of `run_controller`.  The
first component is the returned torque vector or the propagated error; the
second component is the controller state as observable after the call
(mutations performed before a raise persist, as in Python). -/
def run_controller (c : EEPostureController) (m : Model) :
    Except CtrlError (Vec 7) × EEPostureController :=
  match resolve_ori c m with
  | .error e => (.error e, c)
  | .ok (oe, dvo, dao, c1) =>
    match resolve_pos c m with
    | (none, _, _) => (.error .unsetGoal, c1)
    | (some dp, dvp, dap) =>
      let t1 := task_torque c.uncoupling m
                  (desired_force c.kp c.kv m dp dvp dap)
                  (desired_torque c.kp c.kv m oe dvo dao)
      let c2 := { c1 with torques := t1 }
      match nullspace_torques_chk m.mass_matrix
              (opspace_matrices m.mass_matrix m.J_full m.J_pos m.J_ori).2.2.2
              c.goal_posture m.joint_pos m.joint_vel c.posture_gain with
      | .error e => (.error e, c2)
      | .ok nt => (.ok (t1 + nt), { c2 with torques := t1 + nt })

/-- Modelled from the spec: `set_goal` delegates to the base impedance
controller (`ee_imp.py`, not under the sources), which translates the
commanded delta into absolute goal fields; with an orientation interpolator
attached it also records the current orientation as the interpolation
reference and clears the started flag.  The translated absolute pose is
taken as input here. -/
def set_goal (c : EEPostureController) (m : Model)
    (p : Vec 3) (o : Mat 3 3) : EEPostureController :=
  match c.interpolator_ori with
  | some _ =>
    { c with goal_pos := some p, goal_ori := some o,
             ori_ref := some m.ee_ori_mat, ori_interpolate_started := false }
  | none => { c with goal_pos := some p, goal_ori := some o }

/-- The state-provider readings consumed by the construction-time pre-warm
step, each `Option`-valued so that an absent reading can be modelled. -/
structure ModelReadings : Type where
  mass_matrix : Option (Mat 7 7)
  J_full : Option (Mat 6 7)
  J_pos : Option (Mat 3 7)
  J_ori : Option (Mat 3 7)
  joint_pos : Option (Vec 7)
  joint_vel : Option (Vec 7)

/-- Modelled from the spec: the default posture gain used by the pre-warm
call to `nullspace_torques` (its exact value is immaterial to the claims,
only that the call is made). -/
def default_prewarm_gain : ℚ := 10

/-- Lines 56–81 of `ee_posture.py`: `_compile_jit_functions` reads the
model's mass matrix, Jacobians and joint state and calls the math kernel on
them; an absent reading makes the numerical call raise (modelled from the
spec as `absentReading`), and a posture of mismatched shape makes the
`nullspace_torques` call raise. -/
def compile_jit_functions (mr : ModelReadings) (goal_posture : List ℚ) :
    Except CtrlError Unit :=
  match mr.mass_matrix, mr.J_full, mr.J_pos, mr.J_ori,
        mr.joint_pos, mr.joint_vel with
  | some mM, some jf, some jp, some jo, some q, some qd =>
    (nullspace_torques_chk mM (opspace_matrices mM jf jp jo).2.2.2
        goal_posture q qd default_prewarm_gain).map (fun _ => ())
  | _, _, _, _, _, _ => .error .absentReading

/-- Lines 18–53 of `ee_posture.py`: `__init__` stores the posture target and
gain, initializes the base-class state (goal sentinels unset, modelled from
the spec) and then always invokes the pre-warm step, whose failure
propagates out of construction. -/
def mk_controller (posture_gain : ℚ) (posture : List ℚ) (kp kv : Vec 6)
    (uncoupling : Bool) (ip io : Option Interp) (mr : ModelReadings) :
    Except CtrlError EEPostureController :=
  (compile_jit_functions mr posture).map (fun _ =>
    { kp := kp, kv := kv, uncoupling := uncoupling,
      posture_gain := posture_gain, goal_posture := posture,
      goal_pos := none, goal_ori := none, ori_ref := none,
      ori_interpolate_started := false, relative_ori := 0,
      interpolator_pos := ip, interpolator_ori := io, torques := 0 })

/-- Block-diagonal assembly of a 6×6 matrix from two 3×3 blocks. -/
def blockDiag (A B : Mat 3 3) : Mat 6 6 :=
  Matrix.of
    ![![A 0 0, A 0 1, A 0 2, 0, 0, 0],
      ![A 1 0, A 1 1, A 1 2, 0, 0, 0],
      ![A 2 0, A 2 1, A 2 2, 0, 0, 0],
      ![0, 0, 0, B 0 0, B 0 1, B 0 2],
      ![0, 0, 0, B 1 0, B 1 1, B 1 2],
      ![0, 0, 0, B 2 0, B 2 1, B 2 2]]

theorem vappend_zero : vappend 0 0 = 0 := by
  funext i
  fin_cases i <;> simp [vappend, cons_val_five]

theorem task_wrench_zero (b : Bool) (lf : Mat 6 6) (lp lo : Mat 3 3) :
    task_wrench b lf lp lo 0 0 = 0 := by
  cases b <;> simp [task_wrench, vappend_zero, Matrix.mulVec_zero]

theorem task_torque_zero (u : Bool) (m : Model) :
    task_torque u m 0 0 = m.torque_compensation := by
  unfold task_torque
  rw [task_wrench_zero, Matrix.mulVec_zero, zero_add]

theorem joint_kv_of_zero : joint_kv_of 0 = 0 := by
  unfold joint_kv_of
  norm_num [Rat.sqrt]

theorem nullspace_torques_zero_gain (mass_matrix nullspace_matrix : Mat 7 7)
    (initial_joint joint_pos joint_vel : Vec 7) :
    nullspace_torques mass_matrix nullspace_matrix initial_joint joint_pos
      joint_vel 0 = 0 := by
  unfold nullspace_torques
  rw [joint_kv_of_zero]
  have h : (fun i => (0 : ℚ) * (initial_joint i - joint_pos i) -
      0 * joint_vel i) = (0 : Vec 7) := by
    funext i
    simp only [Pi.zero_apply]
    ring
  rw [h, Matrix.mulVec_zero, Matrix.mulVec_zero]

theorem blockDiag_mulVec (A B : Mat 3 3) (x y : Vec 3) :
    (blockDiag A B).mulVec (vappend x y) =
      vappend (A.mulVec x) (B.mulVec y) := by
  funext i
  fin_cases i <;>
    simp [Matrix.mulVec, Matrix.dotProduct, Fin.sum_univ_six,
      Fin.sum_univ_three, blockDiag, vappend, cons_val_five]

/-- Value of a length-seven-or-more vector literal at index six. -/
theorem cons_val_six {α : Type} {m : ℕ} (x : α)
    (u : Fin (Nat.succ (Nat.succ (Nat.succ (Nat.succ (Nat.succ
      (Nat.succ m)))))) → α) :
    Matrix.vecCons x u 6 =
      Matrix.vecHead (Matrix.vecTail (Matrix.vecTail (Matrix.vecTail
        (Matrix.vecTail (Matrix.vecTail u))))) :=
  rfl

/-- The task-space torque (wrench mapping plus compensation, no posture
term) computed by `run_controller` on a cycle with no interpolators and a
set goal `(gp, go)`. -/
def no_interp_torque (c : EEPostureController) (m : Model)
    (gp : Vec 3) (go : Mat 3 3) : Vec 7 :=
  task_torque c.uncoupling m (desired_force c.kp c.kv m gp 0 0)
    (desired_torque c.kp c.kv m (orientation_error go m.ee_ori_mat) 0 0)

theorem run_controller_no_interp_split (c : EEPostureController) (m : Model)
    (gp : Vec 3) (go : Mat 3 3)
    (hip : c.interpolator_pos = none) (hio : c.interpolator_ori = none)
    (hgp : c.goal_pos = some gp) (hgo : c.goal_ori = some go) :
    run_controller c m =
      (match nullspace_torques_chk m.mass_matrix
          (opspace_matrices m.mass_matrix m.J_full m.J_pos m.J_ori).2.2.2
          c.goal_posture m.joint_pos m.joint_vel c.posture_gain with
       | .error e =>
         (.error e, { c with torques := no_interp_torque c m gp go })
       | .ok nt =>
         (.ok (no_interp_torque c m gp go + nt),
          { c with torques := no_interp_torque c m gp go + nt })) := by
  have hOri : resolve_ori c m = .ok (orientation_error go m.ee_ori_mat, 0, 0, c) := by
    simp [resolve_ori, hio, hgo]
  have hPos : resolve_pos c m = (some gp, 0, 0) := by
    simp [resolve_pos, hip, hgp]
  unfold run_controller no_interp_torque
  rw [hOri, hPos]

/-- A fixed full-rank 6×7 Jacobian used by concrete scenarios: the first six
standard basis rows. -/
def JW : Mat 6 7 :=
  Matrix.of ![![1,0,0,0,0,0,0], ![0,1,0,0,0,0,0], ![0,0,1,0,0,0,0],
              ![0,0,0,1,0,0,0], ![0,0,0,0,1,0,0], ![0,0,0,0,0,1,0]]

/-- Positional block (first three rows) of `JW`. -/
def JWp : Mat 3 7 :=
  Matrix.of ![![1,0,0,0,0,0,0], ![0,1,0,0,0,0,0], ![0,0,1,0,0,0,0]]

/-- Rotational block (last three rows) of `JW`. -/
def JWo : Mat 3 7 :=
  Matrix.of ![![0,0,0,1,0,0,0], ![0,0,0,0,1,0,0], ![0,0,0,0,0,1,0]]

/-- Concrete robot state for witnesses: identity mass matrix, the fixed
full-rank Jacobian `JW`, end effector at the origin with identity
orientation, all velocities zero, and a nonzero compensation torque. -/
def mW1 : Model :=
  { mass_matrix := 1, J_full := JW, J_pos := JWp, J_ori := JWo,
    joint_pos := 0, joint_vel := 0, ee_pos := 0, ee_ori_mat := 1,
    ee_pos_vel := 0, ee_ori_vel := 0,
    torque_compensation := fun i => (i.1 : ℚ) + 1 }

/-- Concrete controller state for the C1 witness: no interpolators, goal
equal to the current pose of `mW1`, posture gain zero. -/
def cW1 : EEPostureController :=
  { kp := fun _ => 50, kv := fun _ => 14, uncoupling := true,
    posture_gain := 0, goal_posture := [0, 0, 0, 0, 0, 0, 0],
    goal_pos := some 0, goal_ori := some 1, ori_ref := none,
    ori_interpolate_started := false, relative_ori := 0,
    interpolator_pos := none, interpolator_ori := none, torques := 0 }

/-- C1: with no interpolators, the goal equal to the current end-effector
pose, identity mass matrix, all velocities zero and posture gain zero,
`run_controller` returns exactly the state provider's torque-compensation
vector. -/
theorem run_controller_pure_compensation (c : EEPostureController) (m : Model)
    (hip : c.interpolator_pos = none) (hio : c.interpolator_ori = none)
    (hgp : c.goal_pos = some m.ee_pos) (hgo : c.goal_ori = some m.ee_ori_mat)
    (hM : m.mass_matrix = 1) (hpv : m.ee_pos_vel = 0) (hov : m.ee_ori_vel = 0)
    (hjv : m.joint_vel = 0) (hgain : c.posture_gain = 0)
    (hlen : c.goal_posture.length = 7) :
    (run_controller c m).1 = .ok m.torque_compensation := by
  rw [run_controller_no_interp_split c m m.ee_pos m.ee_ori_mat hip hio hgp hgo]
  have hF : desired_force c.kp c.kv m m.ee_pos 0 0 = 0 := by
    funext i
    simp [desired_force, hpv]
  have hT : desired_torque c.kp c.kv m
      (orientation_error m.ee_ori_mat m.ee_ori_mat) 0 0 = 0 := by
    rw [orientation_error_self]
    funext i
    simp [desired_torque, hov]
  have hchk : nullspace_torques_chk m.mass_matrix
      (opspace_matrices m.mass_matrix m.J_full m.J_pos m.J_ori).2.2.2
      c.goal_posture m.joint_pos m.joint_vel c.posture_gain = .ok 0 := by
    simp [nullspace_torques_chk, hlen, hgain, nullspace_torques_zero_gain]
  rw [hchk]
  simp [no_interp_torque, hF, hT, task_torque_zero]

/-- C1 witness: the scenario instantiated at the concrete state `mW1` and
controller `cW1`. -/
theorem run_controller_pure_compensation_witness :
    (run_controller cW1 mW1).1 = .ok mW1.torque_compensation :=
  run_controller_pure_compensation cW1 mW1 rfl rfl rfl rfl rfl rfl rfl rfl rfl
    (by decide)

/-- C5: `nullspace_torques` with posture gain `0` returns the zero vector
for every mass matrix, null-space matrix, posture target and joint
position/velocity, so a zero posture gain adds nothing to the torque
computed by `run_controller`. -/
theorem nullspace_torques_gain_zero (mass_matrix nullspace_matrix : Mat 7 7)
    (initial_joint joint_pos joint_vel : Vec 7) :
    nullspace_torques mass_matrix nullspace_matrix initial_joint joint_pos
      joint_vel 0 = 0 :=
  nullspace_torques_zero_gain mass_matrix nullspace_matrix initial_joint
    joint_pos joint_vel

/-- C3: with the goal sentinels in their never-set state, `run_controller`
propagates an error to the caller and neither returns a torque vector nor
mutates the controller state. -/
theorem run_controller_unset_goal (c : EEPostureController) (m : Model)
    (h1 : c.goal_pos = none) (h2 : c.goal_ori = none) (h3 : c.ori_ref = none) :
    (run_controller c m).1 = .error .unsetGoal ∧
      (run_controller c m).2 = c := by
  have hOri : resolve_ori c m = .error .unsetGoal := by
    cases hio : c.interpolator_ori <;> simp [resolve_ori, hio, h2, h3]
  constructor <;> simp [run_controller, hOri]

/-- Concrete controller state for the C3 witness: freshly constructed, no
goal ever set. -/
def cW3 : EEPostureController :=
  { kp := fun _ => 50, kv := fun _ => 14, uncoupling := true,
    posture_gain := 3, goal_posture := [0, 0, 0, 0, 0, 0, 0],
    goal_pos := none, goal_ori := none, ori_ref := none,
    ori_interpolate_started := false, relative_ori := 0,
    interpolator_pos := none, interpolator_ori := none, torques := 0 }

/-- C3 witness: calling `run_controller` on the freshly constructed `cW3`
propagates the unset-goal error and leaves the state untouched. -/
theorem run_controller_unset_goal_witness :
    (run_controller cW3 mW1).1 = .error .unsetGoal ∧
      (run_controller cW3 mW1).2 = cW3 :=
  run_controller_unset_goal cW3 mW1 rfl rfl rfl

/-- C8: on a cycle with no position interpolator and no orientation
interpolator, the desired position is the stored goal position with zero
desired velocity and acceleration, and the orientation error is computed
directly between the stored goal orientation and the current end-effector
orientation; `run_controller` consumes exactly these resolver outputs. -/
theorem run_controller_static_goal (c : EEPostureController) (m : Model)
    (gp : Vec 3) (go : Mat 3 3)
    (hip : c.interpolator_pos = none) (hio : c.interpolator_ori = none)
    (hgp : c.goal_pos = some gp) (hgo : c.goal_ori = some go) :
    resolve_pos c m = (some gp, 0, 0) ∧
      resolve_ori c m = .ok (orientation_error go m.ee_ori_mat, 0, 0, c) := by
  constructor <;> simp [resolve_pos, resolve_ori, hip, hio, hgp, hgo]

/-- Concrete controller state for the C8 witness: interpolator-free with a
set goal distinct from the current pose. -/
def cW8 : EEPostureController :=
  { kp := fun _ => 50, kv := fun _ => 14, uncoupling := false,
    posture_gain := 2, goal_posture := [1, 0, 0, 0, 0, 0, 0],
    goal_pos := some (fun _ => 1), goal_ori := some 1, ori_ref := none,
    ori_interpolate_started := false, relative_ori := 0,
    interpolator_pos := none, interpolator_ori := none, torques := 0 }

/-- C8 witness: the static-goal resolution at the concrete state. -/
theorem run_controller_static_goal_witness :
    resolve_pos cW8 mW1 = (some (fun _ => 1), 0, 0) ∧
      resolve_ori cW8 mW1 =
        .ok (orientation_error 1 mW1.ee_ori_mat, 0, 0, cW8) :=
  run_controller_static_goal cW8 mW1 (fun _ => 1) 1 rfl rfl rfl rfl

/-- Counterexample mass matrix: symmetric positive definite, but not the
identity (first joint has mass 2). -/
def Mc : Mat 7 7 :=
  Matrix.of ![![2,0,0,0,0,0,0], ![0,1,0,0,0,0,0], ![0,0,1,0,0,0,0],
              ![0,0,0,1,0,0,0], ![0,0,0,0,1,0,0], ![0,0,0,0,0,1,0],
              ![0,0,0,0,0,0,1]]

/-- Inverse of `Mc`. -/
def McInv : Mat 7 7 :=
  Matrix.of ![![1/2,0,0,0,0,0,0], ![0,1,0,0,0,0,0], ![0,0,1,0,0,0,0],
              ![0,0,0,1,0,0,0], ![0,0,0,0,1,0,0], ![0,0,0,0,0,1,0],
              ![0,0,0,0,0,0,1]]

/-- Counterexample full Jacobian: full rank, with one row coupling the two
first joints. -/
def Jc : Mat 6 7 :=
  Matrix.of ![![1,1,0,0,0,0,0], ![0,0,1,0,0,0,0], ![0,0,0,1,0,0,0],
              ![0,0,0,0,1,0,0], ![0,0,0,0,0,1,0], ![0,0,0,0,0,0,1]]

/-- Positional rows of `Jc`. -/
def Jcp : Mat 3 7 :=
  Matrix.of ![![1,1,0,0,0,0,0], ![0,0,1,0,0,0,0], ![0,0,0,1,0,0,0]]

/-- Rotational rows of `Jc`. -/
def Jco : Mat 3 7 :=
  Matrix.of ![![0,0,0,0,1,0,0], ![0,0,0,0,0,1,0], ![0,0,0,0,0,0,1]]

/-- `Jc * McInv`. -/
def JcM : Mat 6 7 :=
  Matrix.of ![![1/2,1,0,0,0,0,0], ![0,0,1,0,0,0,0], ![0,0,0,1,0,0,0],
              ![0,0,0,0,1,0,0], ![0,0,0,0,0,1,0], ![0,0,0,0,0,0,1]]

/-- The task-space inertia inverse `Jc * Mc⁻¹ * Jcᵀ`. -/
def Ac : Mat 6 6 :=
  Matrix.of ![![3/2,0,0,0,0,0], ![0,1,0,0,0,0], ![0,0,1,0,0,0],
              ![0,0,0,1,0,0], ![0,0,0,0,1,0], ![0,0,0,0,0,1]]

/-- The operational-space inertia `Ac⁻¹`. -/
def Lc : Mat 6 6 :=
  Matrix.of ![![2/3,0,0,0,0,0], ![0,1,0,0,0,0], ![0,0,1,0,0,0],
              ![0,0,0,1,0,0], ![0,0,0,0,1,0], ![0,0,0,0,0,1]]

/-- `Jcᵀ * Lc`. -/
def P1 : Mat 7 6 :=
  Matrix.of ![![2/3,0,0,0,0,0], ![2/3,0,0,0,0,0], ![0,1,0,0,0,0],
              ![0,0,1,0,0,0], ![0,0,0,1,0,0], ![0,0,0,0,1,0],
              ![0,0,0,0,0,1]]

/-- `Jcᵀ * Lc * Jc`. -/
def P2 : Mat 7 7 :=
  Matrix.of ![![2/3,2/3,0,0,0,0,0], ![2/3,2/3,0,0,0,0,0], ![0,0,1,0,0,0,0],
              ![0,0,0,1,0,0,0], ![0,0,0,0,1,0,0], ![0,0,0,0,0,1,0],
              ![0,0,0,0,0,0,1]]

/-- `Jcᵀ * Lc * Jc * Mc⁻¹`. -/
def P3 : Mat 7 7 :=
  Matrix.of ![![1/3,2/3,0,0,0,0,0], ![1/3,2/3,0,0,0,0,0], ![0,0,1,0,0,0,0],
              ![0,0,0,1,0,0,0], ![0,0,0,0,1,0,0], ![0,0,0,0,0,1,0],
              ![0,0,0,0,0,0,1]]

/-- `Jc * N` for the spec's projector `N = 1 - P3`: visibly nonzero. -/
def JcN : Mat 6 7 :=
  Matrix.of ![![1/3,-1/3,0,0,0,0,0], ![0,0,0,0,0,0,0], ![0,0,0,0,0,0,0],
              ![0,0,0,0,0,0,0], ![0,0,0,0,0,0,0], ![0,0,0,0,0,0,0]]

theorem cMcMcInv : Mc * McInv = 1 := by
  ext i j
  fin_cases i <;> fin_cases j <;>
    norm_num [Matrix.mul_apply, Fin.sum_univ_seven, Mc, McInv,
      Matrix.one_apply, Fin.ext_iff, cons_val_five, cons_val_six,
      Matrix.vecHead, Matrix.vecTail, Matrix.of_apply, Function.comp]

theorem cJcMcInv : Jc * McInv = JcM := by
  ext i j
  fin_cases i <;> fin_cases j <;>
    norm_num [Matrix.mul_apply, Fin.sum_univ_seven, Jc, McInv, JcM,
      Fin.ext_iff, cons_val_five, cons_val_six,
      Matrix.vecHead, Matrix.vecTail, Matrix.of_apply, Function.comp]

theorem cJcMJcT : JcM * Jc.transpose = Ac := by
  ext i j
  fin_cases i <;> fin_cases j <;>
    norm_num [Matrix.mul_apply, Fin.sum_univ_seven, Jc, JcM, Ac,
      Matrix.transpose_apply, Fin.ext_iff, cons_val_five, cons_val_six,
      Matrix.vecHead, Matrix.vecTail, Matrix.transpose, Matrix.of_apply,
      Function.comp]

theorem cAcLc : Ac * Lc = 1 := by
  ext i j
  fin_cases i <;> fin_cases j <;>
    norm_num [Matrix.mul_apply, Fin.sum_univ_six, Ac, Lc,
      Matrix.one_apply, Fin.ext_iff, cons_val_five, cons_val_six,
      Matrix.vecHead, Matrix.vecTail, Matrix.of_apply, Function.comp]

theorem cP1 : Jc.transpose * Lc = P1 := by
  ext i j
  fin_cases i <;> fin_cases j <;>
    norm_num [Matrix.mul_apply, Fin.sum_univ_six, Jc, Lc, P1,
      Matrix.transpose_apply, Fin.ext_iff, cons_val_five, cons_val_six,
      Matrix.vecHead, Matrix.vecTail, Matrix.transpose, Matrix.of_apply,
      Function.comp]

theorem cP2 : P1 * Jc = P2 := by
  ext i j
  fin_cases i <;> fin_cases j <;>
    norm_num [Matrix.mul_apply, Fin.sum_univ_six, Jc, P1, P2,
      Fin.ext_iff, cons_val_five, cons_val_six,
      Matrix.vecHead, Matrix.vecTail, Matrix.of_apply, Function.comp]

theorem cP3 : P2 * McInv = P3 := by
  ext i j
  fin_cases i <;> fin_cases j <;>
    norm_num [Matrix.mul_apply, Fin.sum_univ_seven, McInv, P2, P3,
      Fin.ext_iff, cons_val_five, cons_val_six,
      Matrix.vecHead, Matrix.vecTail, Matrix.of_apply, Function.comp]

/-- The spec-formula projector `1 - P3` written out. -/
def N3 : Mat 7 7 :=
  Matrix.of ![![2/3,-2/3,0,0,0,0,0], ![-1/3,1/3,0,0,0,0,0],
              ![0,0,0,0,0,0,0], ![0,0,0,0,0,0,0], ![0,0,0,0,0,0,0],
              ![0,0,0,0,0,0,0], ![0,0,0,0,0,0,0]]

theorem cN3 : (1 : Mat 7 7) - P3 = N3 := by
  ext i j
  fin_cases i <;> fin_cases j <;>
    norm_num [P3, N3, Matrix.sub_apply, Matrix.one_apply, Fin.ext_iff,
      cons_val_five, cons_val_six, Matrix.vecHead, Matrix.vecTail,
      Matrix.of_apply, Function.comp]

theorem cJcN : Jc * (1 - P3) = JcN := by
  rw [cN3]
  ext i j
  fin_cases i <;> fin_cases j <;>
    norm_num [Matrix.mul_apply, Fin.sum_univ_seven, Jc, N3, JcN,
      cons_val_five, cons_val_six, Matrix.vecHead, Matrix.vecTail,
      Matrix.of_apply, Function.comp]

/-- C2 counterexample: for the invertible, symmetric positive definite mass
matrix `Mc` and the full-rank Jacobian `Jc` (with `Jc·Mc⁻¹·Jcᵀ`
invertible, so the input constraints hold), the projector `N` returned by
`opspace_matrices` does not satisfy `J_full · N = 0`. -/
theorem opspace_nullspace_claim_counterexample :
    (∃ B, Mc * B = 1) ∧
      (∃ C, Jc * myInv Mc * Jc.transpose * C = 1) ∧
      Jc * (opspace_matrices Mc Jc Jcp Jco).2.2.2 ≠ 0 := by
  have hMi : myInv Mc = McInv := by
    rw [myInv_eq]
    exact Matrix.inv_eq_right_inv cMcMcInv
  have hAc : Jc * myInv Mc * Jc.transpose = Ac := by
    rw [hMi, cJcMcInv, cJcMJcT]
  have hLc : lambda_of Mc Jc = Lc := by
    unfold lambda_of
    rw [hAc, myInv_eq]
    exact Matrix.inv_eq_right_inv cAcLc
  refine ⟨⟨McInv, cMcMcInv⟩, ⟨Lc, by rw [hAc]; exact cAcLc⟩, ?_⟩
  have hN : (opspace_matrices Mc Jc Jcp Jco).2.2.2 = 1 - P3 := by
    show 1 - Jc.transpose * lambda_of Mc Jc * Jc * myInv Mc = 1 - P3
    rw [hLc, hMi, cP1, cP2, cP3]
  rw [hN, cJcN]
  intro h
  have h00 := congrFun (congrFun h 0) 0
  norm_num [JcN, Matrix.of_apply] at h00

/-- C2 amended: under the claim's input constraints, the projector `N`
returned by `opspace_matrices` satisfies `N · J_fullᵀ = 0`, equivalently
`J_full · Nᵀ = 0` — so a joint-torque vector projected through `Nᵀ`, which
is exactly how `nullspace_torques` applies the projector, has zero
task-space effect. -/
theorem opspace_nullspace_annihilates (mM : Mat 7 7) (Jf : Mat 6 7)
    (Jp Jo : Mat 3 7) (hM : ∃ B, mM * B = 1)
    (hL : ∃ C, Jf * myInv mM * Jf.transpose * C = 1) :
    (opspace_matrices mM Jf Jp Jo).2.2.2 * Jf.transpose = 0 ∧
      Jf * ((opspace_matrices mM Jf Jp Jo).2.2.2).transpose = 0 := by
  obtain ⟨C, hC⟩ := hL
  have hd : IsUnit (Jf * myInv mM * Jf.transpose).det :=
    Matrix.isUnit_det_of_right_inverse hC
  have hinv : lambda_of mM Jf * (Jf * myInv mM * Jf.transpose) = 1 := by
    unfold lambda_of
    rw [myInv_eq]
    exact Matrix.nonsing_inv_mul _ hd
  have key : (opspace_matrices mM Jf Jp Jo).2.2.2 * Jf.transpose = 0 := by
    show (1 - Jf.transpose * lambda_of mM Jf * Jf * myInv mM) *
        Jf.transpose = 0
    rw [Matrix.sub_mul, Matrix.one_mul]
    have assoc : Jf.transpose * lambda_of mM Jf * Jf * myInv mM *
        Jf.transpose =
        Jf.transpose * (lambda_of mM Jf * (Jf * myInv mM * Jf.transpose)) := by
      rw [Matrix.mul_assoc (Jf.transpose * lambda_of mM Jf * Jf),
        Matrix.mul_assoc (Jf.transpose * lambda_of mM Jf),
        Matrix.mul_assoc Jf.transpose, Matrix.mul_assoc Jf]
    rw [assoc, hinv, Matrix.mul_one, sub_self]
  refine ⟨key, ?_⟩
  have h2 := congrArg Matrix.transpose key
  rw [Matrix.transpose_mul, Matrix.transpose_transpose,
    Matrix.transpose_zero] at h2
  exact h2

/-- C2 amended witness: the annihilation property instantiated at the
identity mass matrix and the fixed full-rank Jacobian `JW`. -/
theorem opspace_nullspace_annihilates_witness :
    (opspace_matrices 1 JW JWp JWo).2.2.2 * JW.transpose = 0 :=
  (opspace_nullspace_annihilates 1 JW JWp JWo ⟨1, mul_one 1⟩
    ⟨1, by
      rw [myInv_one, Matrix.mul_one, Matrix.mul_one]
      ext i j
      fin_cases i <;> fin_cases j <;>
        norm_num [Matrix.mul_apply, Fin.sum_univ_seven, JW,
          Matrix.one_apply, Fin.ext_iff, cons_val_five, cons_val_six,
          Matrix.vecHead, Matrix.vecTail, Matrix.transpose, Matrix.of_apply,
          Function.comp]⟩).1

theorem task_wrench_modes_eq (lf : Mat 6 6) (lp lo : Mat 3 3)
    (h : lf = blockDiag lp lo) (F Tq : Vec 3) :
    task_wrench true lf lp lo F Tq = task_wrench false lf lp lo F Tq := by
  unfold task_wrench
  rw [if_pos rfl, if_neg (by simp), h, blockDiag_mulVec]

/-- C4: whenever the computed full operational-space inertia is
block-diagonal with the computed positional and rotational inertias as its
blocks, the decoupled and coupled wrench computations agree, and hence
`run_controller` returns the same torque (and caches the same torque) in
both modes. -/
theorem run_controller_mode_equivalence (c : EEPostureController) (m : Model)
    (h : (opspace_matrices m.mass_matrix m.J_full m.J_pos m.J_ori).1 =
      blockDiag (opspace_matrices m.mass_matrix m.J_full m.J_pos m.J_ori).2.1
        (opspace_matrices m.mass_matrix m.J_full m.J_pos m.J_ori).2.2.1) :
    (∀ F Tq : Vec 3,
      task_wrench true (opspace_matrices m.mass_matrix m.J_full m.J_pos m.J_ori).1
        (opspace_matrices m.mass_matrix m.J_full m.J_pos m.J_ori).2.1
        (opspace_matrices m.mass_matrix m.J_full m.J_pos m.J_ori).2.2.1 F Tq =
      task_wrench false (opspace_matrices m.mass_matrix m.J_full m.J_pos m.J_ori).1
        (opspace_matrices m.mass_matrix m.J_full m.J_pos m.J_ori).2.1
        (opspace_matrices m.mass_matrix m.J_full m.J_pos m.J_ori).2.2.1 F Tq) ∧
    (run_controller { c with uncoupling := true } m).1 =
      (run_controller { c with uncoupling := false } m).1 ∧
    (run_controller { c with uncoupling := true } m).2.torques =
      (run_controller { c with uncoupling := false } m).2.torques := by
  have hw := task_wrench_modes_eq _ _ _ h
  refine ⟨hw, ?_⟩
  have hTT : ∀ F Tq : Vec 3,
      task_torque true m F Tq = task_torque false m F Tq := by
    intro F Tq
    unfold task_torque
    rw [hw]
  cases hio : c.interpolator_ori with
  | none =>
    cases hgo : c.goal_ori with
    | none =>
      constructor <;> simp [run_controller, resolve_ori, hio, hgo]
    | some go =>
      cases hip : c.interpolator_pos with
      | none =>
        cases hgp : c.goal_pos with
        | none =>
          constructor <;>
            simp [run_controller, resolve_ori, resolve_pos, hio, hgo, hip, hgp]
        | some gp =>
          cases hnt : nullspace_torques_chk m.mass_matrix
              (opspace_matrices m.mass_matrix m.J_full m.J_pos m.J_ori).2.2.2
              c.goal_posture m.joint_pos m.joint_vel c.posture_gain <;>
            constructor <;>
              simp [run_controller, resolve_ori, resolve_pos, hio, hgo, hip,
                hgp, hnt, hTT]
      | some ip =>
        cases hnt : nullspace_torques_chk m.mass_matrix
            (opspace_matrices m.mass_matrix m.J_full m.J_pos m.J_ori).2.2.2
            c.goal_posture m.joint_pos m.joint_vel c.posture_gain <;>
          by_cases h4 : ip.order = 4 <;>
            constructor <;>
              simp [run_controller, resolve_ori, resolve_pos, hio, hgo, hip,
                h4, hnt, hTT]
  | some io =>
    cases href : c.ori_ref with
    | none =>
      constructor <;> simp [run_controller, resolve_ori, hio, href]
    | some oref =>
      cases hip : c.interpolator_pos with
      | none =>
        cases hgp : c.goal_pos with
        | none =>
          by_cases h4 : io.order = 4 <;>
            constructor <;>
              simp [run_controller, resolve_ori, resolve_pos, hio, href, hip,
                hgp, h4]
        | some gp =>
          cases hnt : nullspace_torques_chk m.mass_matrix
              (opspace_matrices m.mass_matrix m.J_full m.J_pos m.J_ori).2.2.2
              c.goal_posture m.joint_pos m.joint_vel c.posture_gain <;>
            by_cases h4 : io.order = 4 <;>
              constructor <;>
                simp [run_controller, resolve_ori, resolve_pos, hio, href,
                  hip, hgp, h4, hnt, hTT]
      | some ip =>
        cases hnt : nullspace_torques_chk m.mass_matrix
            (opspace_matrices m.mass_matrix m.J_full m.J_pos m.J_ori).2.2.2
            c.goal_posture m.joint_pos m.joint_vel c.posture_gain <;>
          by_cases h4 : io.order = 4 <;>
            by_cases hp4 : ip.order = 4 <;>
              constructor <;>
                simp [run_controller, resolve_ori, resolve_pos, hio, href,
                  hip, h4, hp4, hnt, hTT]

theorem lambda_of_one_of (J : Mat 3 7) (hJ : J * J.transpose = 1) :
    lambda_of 1 J = 1 := by
  unfold lambda_of
  rw [myInv_one, Matrix.mul_one, hJ, myInv_one]

theorem lambda_of_one_of6 (J : Mat 6 7) (hJ : J * J.transpose = 1) :
    lambda_of 1 J = 1 := by
  unfold lambda_of
  rw [myInv_one, Matrix.mul_one, hJ, myInv_one]

theorem cJWJWt : JW * JW.transpose = 1 := by
  ext i j
  fin_cases i <;> fin_cases j <;>
    norm_num [Matrix.mul_apply, Fin.sum_univ_seven, JW, Matrix.one_apply,
      Fin.ext_iff, cons_val_five, cons_val_six, Matrix.vecHead,
      Matrix.vecTail, Matrix.transpose, Matrix.of_apply, Function.comp]

theorem cJWpJWpt : JWp * JWp.transpose = 1 := by
  ext i j
  fin_cases i <;> fin_cases j <;>
    norm_num [Matrix.mul_apply, Fin.sum_univ_seven, JWp, Matrix.one_apply,
      Fin.ext_iff, cons_val_five, cons_val_six, Matrix.vecHead,
      Matrix.vecTail, Matrix.transpose, Matrix.of_apply, Function.comp]

theorem cJWoJWot : JWo * JWo.transpose = 1 := by
  ext i j
  fin_cases i <;> fin_cases j <;>
    norm_num [Matrix.mul_apply, Fin.sum_univ_seven, JWo, Matrix.one_apply,
      Fin.ext_iff, cons_val_five, cons_val_six, Matrix.vecHead,
      Matrix.vecTail, Matrix.transpose, Matrix.of_apply, Function.comp]

theorem blockDiag_one : blockDiag (1 : Mat 3 3) (1 : Mat 3 3) =
    (1 : Mat 6 6) := by
  ext i j
  fin_cases i <;> fin_cases j <;>
    norm_num [blockDiag, Matrix.one_apply, Fin.ext_iff, cons_val_five,
      Matrix.vecHead, Matrix.vecTail, Matrix.of_apply, Function.comp]

/-- Concrete controller state for the C4 witness. -/
def cW4 : EEPostureController :=
  { kp := fun _ => 50, kv := fun _ => 14, uncoupling := true,
    posture_gain := 1, goal_posture := [0, 0, 0, 0, 0, 0, 0],
    goal_pos := some (fun _ => 2), goal_ori := some 1, ori_ref := none,
    ori_interpolate_started := false, relative_ori := 0,
    interpolator_pos := none, interpolator_ori := none, torques := 0 }

/-- C4 witness: at the identity mass matrix and the Jacobian `JW` (whose
operational-space inertias are all identities, so the full inertia is
block-diagonal with the positional/rotational blocks), both coupling modes
return the same torque. -/
theorem run_controller_mode_equivalence_witness :
    (run_controller { cW4 with uncoupling := true } mW1).1 =
      (run_controller { cW4 with uncoupling := false } mW1).1 := by
  have e : opspace_matrices mW1.mass_matrix mW1.J_full mW1.J_pos mW1.J_ori =
      opspace_matrices 1 JW JWp JWo := rfl
  have h : (opspace_matrices mW1.mass_matrix mW1.J_full mW1.J_pos
        mW1.J_ori).1 =
      blockDiag
        (opspace_matrices mW1.mass_matrix mW1.J_full mW1.J_pos mW1.J_ori).2.1
        (opspace_matrices mW1.mass_matrix mW1.J_full mW1.J_pos
          mW1.J_ori).2.2.1 := by
    rw [e]
    show lambda_of 1 JW = blockDiag (lambda_of 1 JWp) (lambda_of 1 JWo)
    rw [lambda_of_one_of6 JW cJWJWt, lambda_of_one_of JWp cJWpJWpt,
      lambda_of_one_of JWo cJWoJWot, blockDiag_one]
  exact (run_controller_mode_equivalence cW4 mW1 h).2.1

theorem run_controller_carries_ori_state (c : EEPostureController) (m : Model)
    (oe dvo dao : Vec 3) (c1 : EEPostureController)
    (h : resolve_ori c m = .ok (oe, dvo, dao, c1)) :
    (run_controller c m).2.relative_ori = c1.relative_ori ∧
      (run_controller c m).2.ori_interpolate_started =
        c1.ori_interpolate_started := by
  unfold run_controller
  rw [h]
  rcases hrp : resolve_pos c m with ⟨dp, dvp, dap⟩
  cases dp with
  | none => simp
  | some v =>
    cases hnt : nullspace_torques_chk m.mass_matrix
        (opspace_matrices m.mass_matrix m.J_full m.J_pos m.J_ori).2.2.2
        c.goal_posture m.joint_pos m.joint_vel c.posture_gain <;>
      simp [hnt]

/-- C6 amended: `run_controller` never changes the goal position, goal
orientation or recorded orientation reference; the interpolation-started
flag is also unchanged except that it is set to `true` when an
acceleration-order (order-4) orientation interpolator is attached. -/
theorem run_controller_goal_state_frame (c : EEPostureController)
    (m : Model) :
    (run_controller c m).2.goal_pos = c.goal_pos ∧
      (run_controller c m).2.goal_ori = c.goal_ori ∧
      (run_controller c m).2.ori_ref = c.ori_ref ∧
      ((run_controller c m).2.ori_interpolate_started =
          c.ori_interpolate_started ∨
        ((∃ io, c.interpolator_ori = some io ∧ io.order = 4) ∧
          (run_controller c m).2.ori_interpolate_started = true)) := by
  cases hio : c.interpolator_ori with
  | none =>
    cases hgo : c.goal_ori with
    | none => simp [run_controller, resolve_ori, hio, hgo]
    | some go =>
      rcases hrp : resolve_pos c m with ⟨dp, dvp, dap⟩
      cases dp with
      | none => simp [run_controller, resolve_ori, hio, hgo, hrp]
      | some v =>
        cases hnt : nullspace_torques_chk m.mass_matrix
            (opspace_matrices m.mass_matrix m.J_full m.J_pos m.J_ori).2.2.2
            c.goal_posture m.joint_pos m.joint_vel c.posture_gain <;>
          simp [run_controller, resolve_ori, hio, hgo, hrp, hnt]
  | some io =>
    cases href : c.ori_ref with
    | none => simp [run_controller, resolve_ori, hio, href]
    | some oref =>
      by_cases h4 : io.order = 4
      case pos =>
        rcases hrp : resolve_pos c m with ⟨dp, dvp, dap⟩
        cases dp with
        | none =>
          simp [run_controller, resolve_ori, hio, href, hrp, h4]
        | some v =>
          cases hnt : nullspace_torques_chk m.mass_matrix
              (opspace_matrices m.mass_matrix m.J_full m.J_pos m.J_ori).2.2.2
              c.goal_posture m.joint_pos m.joint_vel c.posture_gain <;>
            simp [run_controller, resolve_ori, hio, href, hrp, hnt, h4]
      case neg =>
        rcases hrp : resolve_pos c m with ⟨dp, dvp, dap⟩
        cases dp with
        | none =>
          simp [run_controller, resolve_ori, hio, href, hrp, h4]
        | some v =>
          cases hnt : nullspace_torques_chk m.mass_matrix
              (opspace_matrices m.mass_matrix m.J_full m.J_pos m.J_ori).2.2.2
              c.goal_posture m.joint_pos m.joint_vel c.posture_gain <;>
            simp [run_controller, resolve_ori, hio, href, hrp, hnt, h4]

/-- An order-4 (acceleration-level) interpolator stub for concrete states. -/
def ioW4 : Interp := { order := 4, get := fun _ _ => 0 }

/-- An order-1 interpolator stub for concrete states. -/
def ioW1 : Interp := { order := 1, get := fun _ _ => 0 }

/-- Concrete controller state for the C6 counterexample: an order-4
orientation interpolator is attached, the started flag is clear. -/
def cW6 : EEPostureController :=
  { kp := fun _ => 50, kv := fun _ => 14, uncoupling := true,
    posture_gain := 0, goal_posture := [0, 0, 0, 0, 0, 0, 0],
    goal_pos := some 0, goal_ori := some 1, ori_ref := some 1,
    ori_interpolate_started := false, relative_ori := 0,
    interpolator_pos := none, interpolator_ori := some ioW4, torques := 0 }

/-- C6 counterexample: `run_controller` mutates a GoalState field — the
interpolation-started flag flips from `false` to `true` during the call. -/
theorem run_controller_goal_state_counterexample :
    cW6.ori_interpolate_started = false ∧
      (run_controller cW6 mW1).2.ori_interpolate_started = true := by
  constructor
  · rfl
  · rfl

/-- C7 amended: whenever an orientation interpolator is attached,
`run_controller` computes the relative orientation error between the
current end-effector orientation and the recorded orientation reference,
feeds it to the interpolator and uses the first three entries of the
result as the orientation error signal; the interpolation-started flag is
set only when the interpolator has acceleration order (order 4). -/
theorem run_controller_ori_interpolation (c : EEPostureController)
    (m : Model) (io : Interp) (oref : Mat 3 3)
    (hio : c.interpolator_ori = some io) (href : c.ori_ref = some oref) :
    resolve_ori c m = .ok
      (slice3 (io.get (orientation_error m.ee_ori_mat oref)) 0,
       (if io.order = 4 then
         slice3 (io.get (orientation_error m.ee_ori_mat oref)) 3 else 0),
       (if io.order = 4 then
         slice3 (io.get (orientation_error m.ee_ori_mat oref)) 6 else 0),
       (if io.order = 4 then
         { c with relative_ori := orientation_error m.ee_ori_mat oref, ori_interpolate_started := true }
        else
         { c with relative_ori := orientation_error m.ee_ori_mat oref })) ∧
      (run_controller c m).2.relative_ori =
        orientation_error m.ee_ori_mat oref ∧
      (io.order = 4 →
        (run_controller c m).2.ori_interpolate_started = true) := by
  have hro : resolve_ori c m = .ok
      (slice3 (io.get (orientation_error m.ee_ori_mat oref)) 0,
       (if io.order = 4 then
         slice3 (io.get (orientation_error m.ee_ori_mat oref)) 3 else 0),
       (if io.order = 4 then
         slice3 (io.get (orientation_error m.ee_ori_mat oref)) 6 else 0),
       (if io.order = 4 then
         { c with relative_ori := orientation_error m.ee_ori_mat oref, ori_interpolate_started := true }
        else
         { c with relative_ori := orientation_error m.ee_ori_mat oref })) := by
    by_cases h4 : io.order = 4 <;> simp [resolve_ori, hio, href, h4]
  have hcarry := run_controller_carries_ori_state c m _ _ _ _ hro
  refine ⟨hro, ?_, ?_⟩
  · rw [hcarry.1]
    by_cases h4 : io.order = 4 <;> simp [h4]
  · intro h4
    rw [hcarry.2]
    simp [h4]

/-- Concrete controller state for the C7 witness: an order-4 orientation
interpolator with its reference recorded. -/
def cW7 : EEPostureController :=
  { kp := fun _ => 50, kv := fun _ => 14, uncoupling := true,
    posture_gain := 0, goal_posture := [0, 0, 0, 0, 0, 0, 0],
    goal_pos := some 0, goal_ori := some 1, ori_ref := some 1,
    ori_interpolate_started := false, relative_ori := fun _ => 5,
    interpolator_pos := none, interpolator_ori := some ioW4, torques := 0 }

/-- C7 witness: the amended orientation-interpolation behaviour at the
concrete state `cW7`. -/
theorem run_controller_ori_interpolation_witness :
    (run_controller cW7 mW1).2.relative_ori =
      orientation_error mW1.ee_ori_mat 1 ∧
      (run_controller cW7 mW1).2.ori_interpolate_started = true :=
  ⟨(run_controller_ori_interpolation cW7 mW1 ioW4 1 rfl rfl).2.1,
   (run_controller_ori_interpolation cW7 mW1 ioW4 1 rfl rfl).2.2 rfl⟩

/-- Concrete controller state for the C7 counterexample: an order-1
orientation interpolator is attached. -/
def cW7b : EEPostureController :=
  { kp := fun _ => 50, kv := fun _ => 14, uncoupling := true,
    posture_gain := 0, goal_posture := [0, 0, 0, 0, 0, 0, 0],
    goal_pos := some 0, goal_ori := some 1, ori_ref := some 1,
    ori_interpolate_started := false, relative_ori := 0,
    interpolator_pos := none, interpolator_ori := some ioW1, torques := 0 }

/-- C7 counterexample: with an attached orientation interpolator of
non-acceleration order (order 1), `run_controller` does not mark
interpolation as started. -/
theorem run_controller_ori_flag_counterexample :
    cW7b.interpolator_ori.isSome = true ∧
      cW7b.ori_interpolate_started = false ∧
      (run_controller cW7b mW1).2.ori_interpolate_started = false := by
  refine ⟨rfl, rfl, ?_⟩
  rfl

/-- C9 amended: when the null-space step rejects a shape-mismatched posture
target, `run_controller` propagates the error and returns no torque
vector, but the cached torque attribute is left holding the partially
computed task-space torque of the aborted cycle (the cache is written at
line 145, before the fallible null-space step at line 146). -/
theorem run_controller_shape_error_partial_cache (c : EEPostureController)
    (m : Model) (gp : Vec 3) (go : Mat 3 3)
    (hip : c.interpolator_pos = none) (hio : c.interpolator_ori = none)
    (hgp : c.goal_pos = some gp) (hgo : c.goal_ori = some go)
    (hlen : ¬ c.goal_posture.length = 7) :
    (run_controller c m).1 = .error .shapeMismatch ∧
      (run_controller c m).2.torques = no_interp_torque c m gp go := by
  rw [run_controller_no_interp_split c m gp go hip hio hgp hgo]
  have hchk : nullspace_torques_chk m.mass_matrix
      (opspace_matrices m.mass_matrix m.J_full m.J_pos m.J_ori).2.2.2
      c.goal_posture m.joint_pos m.joint_vel c.posture_gain =
        .error .shapeMismatch := by
    simp [nullspace_torques_chk, hlen]
  rw [hchk]
  exact ⟨rfl, rfl⟩

/-- Concrete controller state for C9: empty posture target (shape
mismatch), goal equal to the current pose, cached torque initialized to
zero. -/
def cW9 : EEPostureController :=
  { kp := fun _ => 50, kv := fun _ => 14, uncoupling := true,
    posture_gain := 5, goal_posture := [],
    goal_pos := some 0, goal_ori := some 1, ori_ref := none,
    ori_interpolate_started := false, relative_ori := 0,
    interpolator_pos := none, interpolator_ori := none, torques := 0 }

/-- C9 counterexample: the failed call leaves the cached torque attribute
holding the partially computed task-space torque of the aborted cycle
(here the compensation vector), different from the previous cache. -/
theorem run_controller_partial_cache_counterexample :
    (run_controller cW9 mW1).1 = .error .shapeMismatch ∧
      (run_controller cW9 mW1).2.torques = mW1.torque_compensation ∧
      (run_controller cW9 mW1).2.torques ≠ cW9.torques := by
  have hsplit := run_controller_no_interp_split cW9 mW1 0 1 rfl rfl rfl rfl
  have hchk : nullspace_torques_chk mW1.mass_matrix
      (opspace_matrices mW1.mass_matrix mW1.J_full mW1.J_pos mW1.J_ori).2.2.2
      cW9.goal_posture mW1.joint_pos mW1.joint_vel cW9.posture_gain =
        .error .shapeMismatch := by
    simp [nullspace_torques_chk, cW9]
  have hti : no_interp_torque cW9 mW1 0 1 = mW1.torque_compensation := by
    unfold no_interp_torque
    have hoe : orientation_error 1 mW1.ee_ori_mat = 0 :=
      orientation_error_self 1
    have hF : desired_force cW9.kp cW9.kv mW1 0 0 0 = 0 := by
      funext i
      simp [desired_force, mW1]
    have hT : desired_torque cW9.kp cW9.kv mW1 0 0 0 = 0 := by
      funext i
      simp [desired_torque, mW1]
    rw [hoe, hF, hT, task_torque_zero]
  rw [hsplit, hchk]
  refine ⟨rfl, hti, ?_⟩
  rw [show ((Except.error CtrlError.shapeMismatch, { cW9 with torques := no_interp_torque cW9 mW1 0 1 }) : Except CtrlError (Vec 7) × EEPostureController).2.torques = no_interp_torque cW9 mW1 0 1 from rfl, hti]
  intro h
  have h0 := congrFun h 0
  norm_num [mW1, cW9] at h0

/-- C10: construction always runs the pre-warm step on the provided model
readings, so it succeeds exactly when every reading it consumes is present
and the posture target has the joint count's length; an absent reading or
a shape-mismatched posture makes construction fail with a propagated
error. -/
theorem mk_controller_ok_iff (pg : ℚ) (posture : List ℚ) (kp kv : Vec 6)
    (u : Bool) (ip io : Option Interp) (mr : ModelReadings) :
    (∃ c, mk_controller pg posture kp kv u ip io mr = .ok c) ↔
      (mr.mass_matrix.isSome ∧ mr.J_full.isSome ∧ mr.J_pos.isSome ∧
        mr.J_ori.isSome ∧ mr.joint_pos.isSome ∧ mr.joint_vel.isSome ∧
        posture.length = 7) := by
  obtain ⟨mm, jf, jp, jo, q, qd⟩ := mr
  cases mm with
  | none => simp [mk_controller, compile_jit_functions, Except.map]
  | some mmv =>
    cases jf with
    | none => simp [mk_controller, compile_jit_functions, Except.map]
    | some jfv =>
      cases jp with
      | none => simp [mk_controller, compile_jit_functions, Except.map]
      | some jpv =>
        cases jo with
        | none => simp [mk_controller, compile_jit_functions, Except.map]
        | some jov =>
          cases q with
          | none => simp [mk_controller, compile_jit_functions, Except.map]
          | some qv =>
            cases qd with
            | none => simp [mk_controller, compile_jit_functions, Except.map]
            | some qdv =>
              by_cases hl : posture.length = 7 <;>
                simp [mk_controller, compile_jit_functions,
                  nullspace_torques_chk, hl, Except.map]

/-- C9 amended witness: the shape-mismatch abort at the concrete state
`cW9`, with the error propagated. -/
theorem run_controller_shape_error_partial_cache_witness :
    (run_controller cW9 mW1).1 = .error .shapeMismatch ∧
      (run_controller cW9 mW1).2.torques = no_interp_torque cW9 mW1 0 1 :=
  run_controller_shape_error_partial_cache cW9 mW1 0 1 rfl rfl rfl rfl
    (by decide)
